import Mathlib

/-!
Shallow embedding of the StepManiaX SDK device session layer
(`src/sdk/Windows/SMXDevice.cpp`) and proofs about it.

The byte-stream transport (`SMXDeviceConnection`) is outside the embedded
source; it is represented by two boolean flags on the session state
(`connected`, `connectedWithInfo`) matching `IsConnected()` /
`IsConnectedWithDeviceInfo()`.  Buffers and configuration records are byte
lists (each entry a value in `0..255`); 16-bit words are plain naturals.
Wire commands emitted through `SendCommandLocked` are collected in an output
list instead of being written to the transport.
-/

namespace SMXSpec

/-- `SensorTestMode_Off` from the SDK enum: the value meaning "no mode". -/
def SensorTestMode_Off : Nat := 0

/-- The configuration record is a fixed-size binary blob, opaque to the
engine beyond its byte length; we carry it as its list of bytes. -/
abbrev SMXConfig := List Nat

/-- Wire commands emitted by the device session.  `writeConfig` stands for
the `"w" + size byte + config bytes` message (the size byte is
`sizeof(SMXConfig)` truncated to 8 bits, i.e. the byte length of the record
mod 256); `readConfig` is `"g\n"`; `sensorTestRequest m` is `"y" m "\n"`. -/
inductive WireCommand where
  | reset
  | readConfig
  | factoryResetCmd
  | recalibrate
  | writeConfig (size : Nat) (cfg : SMXConfig)
  | sensorTestRequest (mode : Nat)
  deriving DecidableEq, Repr

/-- Notification reasons passed to the registered update callback. -/
inductive SMXUpdateCallbackReason where
  | Updated
  | FactoryResetCommandComplete
  deriving DecidableEq, Repr

/-- `SMXSensorTestModeData`: per-panel decoded sensor-test telemetry.
All four arrays are indexed by panel (9 entries). -/
structure SensorTestData where
  bHaveDataFromPanel : List Bool
  sensorLevel : List (List Int)
  bBadSensorInput : List (List Bool)
  iDIPSwitchPerPanel : List Nat
  deriving DecidableEq, Repr

/-- The all-zero `SMXSensorTestModeData`, as produced by the four `memset`
calls in `HandleSensorTestDataResponse`. -/
def emptySensorData : SensorTestData :=
  { bHaveDataFromPanel := List.replicate 9 false
    sensorLevel := List.replicate 9 (List.replicate 4 0)
    bBadSensorInput := List.replicate 9 (List.replicate 4 false)
    iDIPSwitchPerPanel := List.replicate 9 0 }

/-- The mutable state of one `SMXDevice` session.  `connected` and
`connectedWithInfo` stand for the transport's `IsConnected()` and
`IsConnectedWithDeviceInfo()` queries. -/
structure DeviceState where
  connected : Bool
  connectedWithInfo : Bool
  m_bHaveConfig : Bool
  m_bSendConfig : Bool
  m_bSendingConfig : Bool
  config : SMXConfig
  wanted_config : SMXConfig
  m_SensorTestMode : Nat
  m_WaitingForSensorTestModeResponse : Nat
  m_SentSensorTestModeRequestAtTicks : Nat
  m_HaveSensorTestModeData : Bool
  m_SensorTestData : SensorTestData
  deriving DecidableEq, Repr

/-- `SendCommandLocked`: queue a command on the transport if connected,
else silently drop it.  The session state itself is unchanged. -/
def SendCommandLocked (s : DeviceState) (cmd : WireCommand) :
    DeviceState × List WireCommand :=
  if s.connected then (s, [cmd]) else (s, [])

/-- `GetConfig`: return `wanted_config` while a write is pending, else the
last read-back `config`; the boolean is `m_bHaveConfig`. -/
def GetConfig (s : DeviceState) : SMXConfig × Bool :=
  (if s.m_bSendConfig then s.wanted_config else s.config, s.m_bHaveConfig)

/-- `SetConfig`: store the new configuration into `wanted_config` and mark
a write pending.  No wire command is emitted (empty output list). -/
def SetConfig (s : DeviceState) (newConfig : SMXConfig) :
    DeviceState × List WireCommand :=
  ({ s with wanted_config := newConfig, m_bSendConfig := true }, [])

/-- The completion callback attached to the configuration write command in
`SendConfig`: it clears `m_bSendingConfig`. -/
def configWriteCompleted (s : DeviceState) : DeviceState :=
  { s with m_bSendingConfig := false }

/-- `SendConfig`: the per-cycle configuration-sync step. -/
def SendConfig (s : DeviceState) : DeviceState × List WireCommand :=
  if !s.connected || !s.m_bSendConfig || s.m_bSendingConfig then (s, [])
  else if !s.m_bHaveConfig then (s, [])
  else
    let cmd := WireCommand.writeConfig (s.wanted_config.length % 256) s.wanted_config
    let s1 := { s with m_bSendingConfig := true }
    let r1 := SendCommandLocked s1 cmd
    let s2 := { r1.1 with m_bSendConfig := false, config := r1.1.wanted_config }
    let r2 := SendCommandLocked s2 .readConfig
    (r2.1, r1.2 ++ r2.2)

/-- `IsConnectedLocked`: transport connected with identity *and* the
configuration cache populated. -/
def IsConnectedLocked (s : DeviceState) : Bool :=
  s.connectedWithInfo && s.m_bHaveConfig

/-- Modelled from the spec: the transport adapter's `close()` (the body of
`SMXDeviceConnection::Close` is not part of the embedded source); after it,
the transport no longer reports a connection or identity. -/
def connectionClose (s : DeviceState) : DeviceState :=
  { s with connected := false, connectedWithInfo := false }

/-- `CloseDevice`: close the transport, reset `m_bHaveConfig` and
`m_bSendConfig`, and raise the `Updated` notification. -/
def CloseDevice (s : DeviceState) : DeviceState × List SMXUpdateCallbackReason :=
  let s1 := connectionClose s
  ({ s1 with m_bHaveConfig := false, m_bSendConfig := false },
   [.Updated])

/-- `SetSensorTestMode`: record the application-selected mode. -/
def SetSensorTestMode (s : DeviceState) (mode : Nat) : DeviceState :=
  { s with m_SensorTestMode := mode }

/-- `GetTestData`: the last decoded telemetry, or nothing before the first
decoded response. -/
def GetTestData (s : DeviceState) : Option SensorTestData :=
  if s.m_HaveSensorTestModeData then some s.m_SensorTestData else none

/-- `now - sent` in 32-bit unsigned arithmetic (`GetTickCount` timestamps),
for `sent < 2^32`. -/
def elapsedTicks (now sent : Nat) : Nat :=
  (now + 2 ^ 32 - sent) % 2 ^ 32

/-- `UpdateTestMode`: the per-cycle sensor-test step.  `now` is the
`GetTickCount()` reading. -/
def UpdateTestMode (s : DeviceState) (now : Nat) : DeviceState × List WireCommand :=
  if s.m_SensorTestMode = SensorTestMode_Off then (s, [])
  else if s.m_WaitingForSensorTestModeResponse ≠ SensorTestMode_Off ∧
      elapsedTicks now s.m_SentSensorTestModeRequestAtTicks < 2000 then (s, [])
  else
    SendCommandLocked
      { s with m_WaitingForSensorTestModeResponse := s.m_SensorTestMode
               m_SentSensorTestModeRequestAtTicks := now }
      (.sensorTestRequest s.m_SensorTestMode)

/-!
### `ReadDataForPanel`

The inner `for(j...)` loop of `ReadDataForPanel`, reading up to 8 bits
(LSB-first) of the given panel's column out of the word list, advancing the
cursor only while it is inside the list.  `steps` counts the remaining loop
iterations, `j` is the current bit position, `result` the accumulated output
byte, `c` the bit cursor (`m_iBit`).
-/

/-- One byte's worth of the bit-reading loop in `ReadDataForPanel`. -/
def readByteLoop (data : List Nat) (iPanel : Nat) :
    Nat → Nat → Nat → Nat → Nat × Nat
  | 0, _, result, c => (result, c)
  | steps + 1, j, result, c =>
    if c < data.length then
      readByteLoop data iPanel steps (j + 1)
        (result ||| ((if (data.getD c 0).testBit iPanel then 1 else 0) <<< j))
        (c + 1)
    else
      readByteLoop data iPanel steps (j + 1) result c

/-- The outer `for(i...)` loop of `ReadDataForPanel`: produce `bytes` output
bytes, threading the bit cursor `c`. -/
def readDataLoop (data : List Nat) (iPanel : Nat) : Nat → Nat → List Nat
  | 0, _ => []
  | bytes + 1, c =>
    let rc := readByteLoop data iPanel 8 0 0 c
    rc.1 :: readDataLoop data iPanel bytes rc.2

/-- `ReadDataForPanel(data, iPanel, pOut, iOutSize)`: extract `iOutSize`
bytes of panel `iPanel`'s bit column from the 16-bit word list. -/
def ReadDataForPanel (data : List Nat) (iPanel : Nat) (iOutSize : Nat) : List Nat :=
  readDataLoop data iPanel iOutSize 0

/-- Reference form of the bit stream drawn by one panel: bit `t` of
`bitsFrom data p steps c` is panel `p`'s bit of word `c + t`, for `t <
steps`, and `0` past the end of the word list. -/
def bitsFrom (data : List Nat) (iPanel : Nat) : Nat → Nat → Nat
  | 0, _ => 0
  | steps + 1, c =>
    (if c < data.length ∧ (data.getD c 0).testBit iPanel then 1 else 0)
      + 2 * bitsFrom data iPanel steps (c + 1)

/-- Past the end of the word list, the panel bit stream is all zero. -/
theorem bitsFrom_of_ge (data : List Nat) (iPanel : Nat) :
    ∀ steps c, data.length ≤ c → bitsFrom data iPanel steps c = 0 := by
  intro steps
  induction steps with
  | zero => intro c _; rfl
  | succ n ih =>
    intro c hc
    rw [bitsFrom, if_neg (fun h => by omega), ih (c + 1) (by omega)]

theorem bitsFrom_testBit (data : List Nat) (iPanel : Nat) :
    ∀ steps c k, (bitsFrom data iPanel steps c).testBit k =
      (decide (k < steps) && decide (c + k < data.length) &&
        (data.getD (c + k) 0).testBit iPanel) := by
  intro steps
  induction steps with
  | zero => intro c k; simp [bitsFrom]
  | succ n ih =>
    intro c k
    cases k with
    | zero =>
      rw [Nat.testBit_zero, bitsFrom]
      rcases Classical.em (c < data.length ∧ (data.getD c 0).testBit iPanel = true)
        with h | h
      · rw [if_pos h]
        have hm : (1 + 2 * bitsFrom data iPanel n (c + 1)) % 2 = 1 := by omega
        rw [hm]
        have hc0 : c + 0 = c := by omega
        rw [hc0]
        have h2 := h.2
        simp only [List.getD_eq_getElem?_getD, List.getElem?_eq_getElem h.1,
          Option.getD_some] at h2
        simp [h.1, h2]
      · rw [if_neg h]
        have hm : (0 + 2 * bitsFrom data iPanel n (c + 1)) % 2 = 0 := by omega
        rw [hm]
        have hc0 : c + 0 = c := by omega
        rw [hc0]
        by_cases hc : c < data.length
        · have hbit : (data.getD c 0).testBit iPanel = false := by
            cases hx : (data.getD c 0).testBit iPanel
            · rfl
            · exact absurd ⟨hc, hx⟩ h
          simp only [List.getD_eq_getElem?_getD, List.getElem?_eq_getElem hc,
            Option.getD_some] at hbit
          simp [hc, hbit]
        · simp [hc]
    | succ k =>
      rw [Nat.testBit_add_one, bitsFrom]
      have hdiv :
          ((if c < data.length ∧ (data.getD c 0).testBit iPanel = true then 1 else 0)
            + 2 * bitsFrom data iPanel n (c + 1)) / 2
            = bitsFrom data iPanel n (c + 1) := by
        rcases Classical.em (c < data.length ∧ (data.getD c 0).testBit iPanel = true)
          with h | h
        · rw [if_pos h]; omega
        · rw [if_neg h]; omega
      rw [hdiv, ih (c + 1)]
      have h1 : c + 1 + k = c + (k + 1) := by omega
      have h2 : decide (k < n) = decide (k + 1 < n + 1) :=
        decide_eq_decide.mpr (by omega)
      rw [h1, h2]

/-- Bits at position `j` and above, merged: for a single bit `b ≤ 1`,
`(b <<< j) ||| (Y <<< (j+1)) = (b + 2*Y) <<< j`. -/
theorem shift_merge (b Y j : Nat) (hb : b ≤ 1) :
    (b <<< j) ||| (Y <<< (j + 1)) = (b + 2 * Y) <<< j := by
  apply Nat.eq_of_testBit_eq
  intro k
  simp only [Nat.testBit_or, Nat.testBit_shiftLeft]
  rcases Nat.lt_or_ge k j with h | h
  · have h1 : ¬ (k ≥ j) := by omega
    have h2 : ¬ (k ≥ j + 1) := by omega
    simp [h1, h2]
  · rcases Nat.eq_or_lt_of_le h with he | hl
    · have h2 : ¬ (k ≥ j + 1) := by omega
      have hmod : (b + 2 * Y) % 2 = b % 2 := by omega
      have hs : k - j = 0 := by omega
      simp [h, h2, hs, Nat.testBit_zero, hmod]
    · have h2 : k ≥ j + 1 := by omega
      have h3 : k - j = (k - (j + 1)) + 1 := by omega
      have hb2 : b / 2 = 0 := by omega
      have hY : (b + 2 * Y) / 2 = Y := by omega
      simp [h, h2, h3, Nat.testBit_add_one, hb2, hY]

theorem readByteLoop_eq (data : List Nat) (iPanel : Nat) :
    ∀ steps j result c, c ≤ data.length →
      readByteLoop data iPanel steps j result c =
        (result ||| (bitsFrom data iPanel steps c <<< j),
         min (c + steps) data.length) := by
  intro steps
  induction steps with
  | zero =>
    intro j result c hc
    simp [readByteLoop, bitsFrom]
    omega
  | succ n ih =>
    intro j result c hc
    rcases Nat.lt_or_ge c data.length with h | h
    · rw [readByteLoop, if_pos h, ih (j + 1) _ (c + 1) (by omega)]
      have hb : (if (data.getD c 0).testBit iPanel then (1:Nat) else 0) ≤ 1 := by
        split <;> omega
      have hcond :
          (if c < data.length ∧ (data.getD c 0).testBit iPanel = true then (1:Nat) else 0)
          = (if (data.getD c 0).testBit iPanel then 1 else 0) := by
        rcases Classical.em ((data.getD c 0).testBit iPanel = true) with hbit | hbit
        · rw [if_pos ⟨h, hbit⟩, if_pos hbit]
        · rw [if_neg (fun hx => hbit hx.2), if_neg hbit]
      rw [Prod.mk.injEq]
      constructor
      · rw [Nat.or_assoc, shift_merge _ _ _ hb]
        conv_rhs => rw [bitsFrom]
        rw [hcond]
      · omega
    · rw [readByteLoop, if_neg (by omega), ih (j + 1) _ c hc]
      rw [Prod.mk.injEq]
      constructor
      · rw [bitsFrom_of_ge data iPanel n c h, bitsFrom_of_ge data iPanel (n + 1) c h,
          Nat.zero_shiftLeft, Nat.zero_shiftLeft]
      · omega

theorem readDataLoop_getD (data : List Nat) (iPanel : Nat) :
    ∀ bytes c i, c ≤ data.length → i < bytes →
      (readDataLoop data iPanel bytes c).getD i 0 =
        bitsFrom data iPanel 8 (min (c + 8 * i) data.length) := by
  intro bytes
  induction bytes with
  | zero => intro c i _ hi; omega
  | succ n ih =>
    intro c i hc hi
    rw [readDataLoop]
    rw [readByteLoop_eq data iPanel 8 0 0 c hc]
    cases i with
    | zero =>
      simp only [List.getD_cons_zero]
      have : min (c + 8 * 0) data.length = c := by omega
      rw [this]
      simp
    | succ i0 =>
      simp only [List.getD_cons_succ]
      rw [ih (min (c + 8) data.length) i0 (by omega) (by omega)]
      congr 1
      omega

theorem readDataLoop_length (data : List Nat) (iPanel : Nat) :
    ∀ bytes c, (readDataLoop data iPanel bytes c).length = bytes := by
  intro bytes
  induction bytes with
  | zero => intro c; rfl
  | succ n ih => intro c; rw [readDataLoop]; simp [ih]

/-!
### `HandleSensorTestDataResponse`
-/

/-- The word-extraction loop `for(int i = 3; i < iSize + 3; i += 2)`:
iteration `k` has `i = 3 + 2*k`, so the loop body runs for
`k < (iSize + 1) / 2` and reads the little-endian word
`(uint8(buf[i+1]) << 8) | uint8(buf[i])`. -/
def extractWords (buf : List Nat) (iSize : Nat) : List Nat :=
  (List.range ((iSize + 1) / 2)).map
    (fun k => (buf.getD (3 + 2 * k + 1) 0) <<< 8 ||| buf.getD (3 + 2 * k) 0)

/-- `detail_data`: the packed per-panel record decoded from the response.
Byte 0 holds (LSB-first) the three signature bits, the four bad-sensor
bits and one reserved bit; bytes 1-8 hold four little-endian signed 16-bit
sensor readings; byte 9 holds the 4-bit DIP value and 4 reserved bits. -/
structure DetailData where
  sig1 : Bool
  sig2 : Bool
  sig3 : Bool
  bad_sensor_0 : Bool
  bad_sensor_1 : Bool
  bad_sensor_2 : Bool
  bad_sensor_3 : Bool
  sensors : List Int
  dip : Nat
  deriving DecidableEq, Repr

/-- Reinterpret a 16-bit unsigned value as a signed `int16_t`. -/
def toInt16 (v : Nat) : Int :=
  if v % 65536 < 32768 then ((v % 65536 : Nat) : Int)
  else ((v % 65536 : Nat) : Int) - 65536

/-- Decode the 10-byte `detail_data` record from its byte list (the memory
overlay of the packed bit-field struct, x86 little-endian layout). -/
def decodeDetail (r : List Nat) : DetailData :=
  let b0 := r.getD 0 0
  { sig1 := b0.testBit 0
    sig2 := b0.testBit 1
    sig3 := b0.testBit 2
    bad_sensor_0 := b0.testBit 3
    bad_sensor_1 := b0.testBit 4
    bad_sensor_2 := b0.testBit 5
    bad_sensor_3 := b0.testBit 6
    sensors :=
      [toInt16 (r.getD 2 0 <<< 8 ||| r.getD 1 0),
       toInt16 (r.getD 4 0 <<< 8 ||| r.getD 3 0),
       toInt16 (r.getD 6 0 <<< 8 ||| r.getD 5 0),
       toInt16 (r.getD 8 0 <<< 8 ||| r.getD 7 0)]
    dip := (r.getD 9 0) % 16 }

/-- `sizeof(detail_data)` with `#pragma pack(1)`: 10 bytes. -/
def detailDataSize : Nat := 10

/-- The body of the per-panel loop in `HandleSensorTestDataResponse`:
decode panel `iPanel`'s record and store it into the output (or mark the
panel as having no data when the signature bits are not `0,1,0`). -/
def decodeOnePanel (data : List Nat) (iPanel : Nat) (output : SensorTestData) :
    SensorTestData :=
  let pd := decodeDetail (ReadDataForPanel data iPanel detailDataSize)
  if pd.sig1 ≠ false ∨ pd.sig2 ≠ true ∨ pd.sig3 ≠ false then
    { output with bHaveDataFromPanel := output.bHaveDataFromPanel.set iPanel false }
  else
    { output with
      bHaveDataFromPanel := output.bHaveDataFromPanel.set iPanel true
      bBadSensorInput := output.bBadSensorInput.set iPanel
        [pd.bad_sensor_0, pd.bad_sensor_1, pd.bad_sensor_2, pd.bad_sensor_3]
      iDIPSwitchPerPanel := output.iDIPSwitchPerPanel.set iPanel pd.dip
      sensorLevel := output.sensorLevel.set iPanel pd.sensors }

/-- Zero the whole output structure (the four `memset` calls), then decode
all 9 panels from the same word list. -/
def decodeAllPanels (data : List Nat) : SensorTestData :=
  (List.range 9).foldl (fun out p => decodeOnePanel data p out) emptySensorData

/-- `HandleSensorTestDataResponse`: handle a `'y'` packet held in `buf`
(byte values `0..255`). -/
def HandleSensorTestDataResponse (s : DeviceState) (buf : List Nat) : DeviceState :=
  if buf.length < 3 then s
  else
    let iSize := (buf.getD 2 0 * 2) % 256
    if buf.length < iSize + 3 then s
    else
      let iMode := buf.getD 1 0
      let data := extractWords buf iSize
      if s.m_WaitingForSensorTestModeResponse = SensorTestMode_Off then s
      else if iMode ≠ s.m_WaitingForSensorTestModeResponse then s
      else
        let s1 := { s with m_WaitingForSensorTestModeResponse := SensorTestMode_Off }
        if iMode ≠ s1.m_SensorTestMode then s1
        else
          { s1 with
            m_HaveSensorTestModeData := true
            m_SensorTestData := decodeAllPanels data }

/-!
### `HandlePackets`
-/

/-- ASCII `'y'`. -/
def tag_y : Nat := 121
/-- ASCII `'g'`. -/
def tag_g : Nat := 103

/-- Dispatch of one packet inside the `while(1)` loop of `HandlePackets`.
The `'g'` readback copies `min(iSize, sizeof(config))` bytes over the start
of the configuration record and sets `m_bHaveConfig`; short `'g'` packets
are logged and skipped (`continue`), leaving the state unchanged. -/
def handlePacket (s : DeviceState) (buf : List Nat) : DeviceState :=
  if buf.length = 0 then s
  else if buf.getD 0 0 = tag_y then HandleSensorTestDataResponse s buf
  else if buf.getD 0 0 = tag_g then
    if buf.length < 2 then s
    else
      let iSize := buf.getD 1 0
      if buf.length < iSize + 2 then s
      else
        let k := min iSize s.config.length
        { s with
          config := (buf.drop 2).take k ++ s.config.drop k
          m_bHaveConfig := true }
  else s

/-- `HandlePackets`: drain all buffered packets in order, dispatching each. -/
def HandlePackets (s : DeviceState) (packets : List (List Nat)) : DeviceState :=
  packets.foldl handlePacket s

/-!
### Operation traces

`Op` enumerates the state-mutating operations of the session, so that
"until ..." properties can be stated over arbitrary interleavings.
-/

inductive Op where
  | opSetConfig (c : SMXConfig)
  | opSendConfig
  | opConfigWriteCompleted
  | opSetSensorTestMode (m : Nat)
  | opUpdateTestMode (now : Nat)
  | opHandlePackets (packets : List (List Nat))
  | opCloseDevice
  deriving DecidableEq, Repr

def applyOp (s : DeviceState) : Op → DeviceState
  | .opSetConfig c => (SetConfig s c).1
  | .opSendConfig => (SendConfig s).1
  | .opConfigWriteCompleted => configWriteCompleted s
  | .opSetSensorTestMode m => SetSensorTestMode s m
  | .opUpdateTestMode now => (UpdateTestMode s now).1
  | .opHandlePackets ps => HandlePackets s ps
  | .opCloseDevice => (CloseDevice s).1

/-- A packet that makes the `'g'` handler accept a configuration readback. -/
def validGPacket (buf : List Nat) : Bool :=
  decide (buf.length ≠ 0) && decide (buf.getD 0 0 = tag_g) &&
  decide (2 ≤ buf.length) && decide (buf.getD 1 0 + 2 ≤ buf.length)

/-- Whether an operation contains an accepted configuration readback. -/
def opHasValidG : Op → Bool
  | .opHandlePackets ps => ps.any validGPacket
  | _ => false

/-!
### Helper lemmas
-/

theorem handleSensorTest_preserves_haveConfig (s : DeviceState) (buf : List Nat) :
    (HandleSensorTestDataResponse s buf).m_bHaveConfig = s.m_bHaveConfig := by
  simp only [HandleSensorTestDataResponse]
  repeat' split
  all_goals rfl

theorem handlePacket_haveConfig (s : DeviceState) (buf : List Nat)
    (h : (handlePacket s buf).m_bHaveConfig = true) :
    s.m_bHaveConfig = true ∨ validGPacket buf = true := by
  rw [handlePacket] at h
  by_cases h0 : buf.length = 0
  · rw [if_pos h0] at h; exact Or.inl h
  rw [if_neg h0] at h
  by_cases hy : buf.getD 0 0 = tag_y
  · rw [if_pos hy] at h
    rw [handleSensorTest_preserves_haveConfig] at h
    exact Or.inl h
  rw [if_neg hy] at h
  by_cases hg : buf.getD 0 0 = tag_g
  · rw [if_pos hg] at h
    by_cases h2 : buf.length < 2
    · rw [if_pos h2] at h; exact Or.inl h
    rw [if_neg h2] at h
    by_cases h3 : buf.length < buf.getD 1 0 + 2
    · rw [if_pos h3] at h; exact Or.inl h
    · refine Or.inr ?_
      rw [validGPacket]
      simp only [Bool.and_eq_true, decide_eq_true_eq]
      exact ⟨⟨⟨h0, hg⟩, by omega⟩, by omega⟩
  · rw [if_neg hg] at h; exact Or.inl h

theorem handlePackets_haveConfig (packets : List (List Nat)) :
    ∀ s : DeviceState, (HandlePackets s packets).m_bHaveConfig = true →
      s.m_bHaveConfig = true ∨ packets.any validGPacket = true := by
  induction packets with
  | nil => intro s h; exact Or.inl h
  | cons buf rest ih =>
    intro s h
    rw [HandlePackets, List.foldl_cons] at h
    rcases ih (handlePacket s buf) h with h1 | h1
    · rcases handlePacket_haveConfig s buf h1 with h2 | h2
      · exact Or.inl h2
      · exact Or.inr (by simp [List.any_cons, h2])
    · exact Or.inr (by simp [List.any_cons, h1])

/-- `m_bHaveConfig` can only become `true` through an accepted
configuration-readback packet. -/
theorem applyOp_haveConfig (s : DeviceState) (op : Op)
    (hg : opHasValidG op = false)
    (h : (applyOp s op).m_bHaveConfig = true) : s.m_bHaveConfig = true := by
  cases op with
  | opSetConfig c => exact h
  | opSendConfig =>
    simp only [applyOp, SendConfig, SendCommandLocked] at h
    repeat' split at h
    all_goals simp_all
  | opConfigWriteCompleted => exact h
  | opSetSensorTestMode m => exact h
  | opUpdateTestMode now =>
    simp only [applyOp, UpdateTestMode, SendCommandLocked] at h
    repeat' split at h
    all_goals simp_all
  | opHandlePackets ps =>
    rw [applyOp] at h
    rcases handlePackets_haveConfig ps s h with h1 | h1
    · exact h1
    · rw [opHasValidG] at hg; rw [h1] at hg; cases hg
  | opCloseDevice =>
    rw [applyOp, CloseDevice] at h
    simp at h

/-- Over any trace of operations none of which carries an accepted
readback, `m_bHaveConfig` stays `false`. -/
theorem trace_haveConfig_stays_false (ops : List Op) :
    ∀ s : DeviceState, (∀ op ∈ ops, opHasValidG op = false) →
      s.m_bHaveConfig = false →
      ((ops.foldl applyOp s).m_bHaveConfig = false ∧
       IsConnectedLocked (ops.foldl applyOp s) = false) := by
  induction ops with
  | nil =>
    intro s _ hf
    simp only [List.foldl_nil]
    exact ⟨hf, by rw [IsConnectedLocked, hf, Bool.and_false]⟩
  | cons op rest ih =>
    intro s hall hf
    rw [List.foldl_cons]
    refine ih (applyOp s op) (fun o ho => hall o (List.mem_cons_of_mem _ ho)) ?_
    cases hx : (applyOp s op).m_bHaveConfig
    · rfl
    · have := applyOp_haveConfig s op (hall op (List.mem_cons_self op rest)) hx
      rw [this] at hf
      cases hf

/-- Everything the decoder stores for one panel, read back from the output
structure. -/
def panelAt (out : SensorTestData) (p : Nat) : Bool × List Int × List Bool × Nat :=
  (out.bHaveDataFromPanel.getD p false, out.sensorLevel.getD p [],
   out.bBadSensorInput.getD p [], out.iDIPSwitchPerPanel.getD p 0)

theorem length_decodeOnePanel_bHave (data : List Nat) (q : Nat) (out : SensorTestData) :
    (decodeOnePanel data q out).bHaveDataFromPanel.length
      = out.bHaveDataFromPanel.length := by
  rw [decodeOnePanel]
  split <;> simp

theorem length_decodeOnePanel_sensorLevel (data : List Nat) (q : Nat) (out : SensorTestData) :
    (decodeOnePanel data q out).sensorLevel.length = out.sensorLevel.length := by
  rw [decodeOnePanel]
  split <;> simp

theorem length_decodeOnePanel_bBad (data : List Nat) (q : Nat) (out : SensorTestData) :
    (decodeOnePanel data q out).bBadSensorInput.length
      = out.bBadSensorInput.length := by
  rw [decodeOnePanel]
  split <;> simp

theorem length_decodeOnePanel_dip (data : List Nat) (q : Nat) (out : SensorTestData) :
    (decodeOnePanel data q out).iDIPSwitchPerPanel.length
      = out.iDIPSwitchPerPanel.length := by
  rw [decodeOnePanel]
  split <;> simp

/-- Decoding panel `q` leaves every other panel's slots untouched. -/
theorem panelAt_decodeOnePanel_ne (data : List Nat) (q p : Nat) (out : SensorTestData)
    (h : q ≠ p) : panelAt (decodeOnePanel data q out) p = panelAt out p := by
  rw [decodeOnePanel]
  split
  · simp [panelAt, List.getD_eq_getElem?_getD, List.getElem?_set_ne h]
  · simp [panelAt, List.getD_eq_getElem?_getD, List.getElem?_set_ne h]

/-- Decoding panel `p` stores the decoded record into panel `p`'s slots,
or (on a bad signature) only clears its have-data flag. -/
theorem panelAt_decodeOnePanel_self (data : List Nat) (p : Nat) (out : SensorTestData)
    (h1 : out.bHaveDataFromPanel.length = 9) (h2 : out.sensorLevel.length = 9)
    (h3 : out.bBadSensorInput.length = 9) (h4 : out.iDIPSwitchPerPanel.length = 9)
    (hp : p < 9) :
    panelAt (decodeOnePanel data p out) p =
      (let pd := decodeDetail (ReadDataForPanel data p detailDataSize)
       if pd.sig1 ≠ false ∨ pd.sig2 ≠ true ∨ pd.sig3 ≠ false then
         (false, out.sensorLevel.getD p [], out.bBadSensorInput.getD p [],
          out.iDIPSwitchPerPanel.getD p 0)
       else
         (true, pd.sensors,
          [pd.bad_sensor_0, pd.bad_sensor_1, pd.bad_sensor_2, pd.bad_sensor_3],
          pd.dip)) := by
  rw [decodeOnePanel]
  split
  · rename_i hsig
    dsimp only
    rw [if_pos hsig]
    simp [panelAt, List.getD_eq_getElem?_getD,
      List.getElem?_set_eq_of_lt _ (h1 ▸ hp)]
  · rename_i hsig
    dsimp only
    rw [if_neg hsig]
    simp [panelAt, List.getD_eq_getElem?_getD,
      List.getElem?_set_eq_of_lt _ (h1 ▸ hp),
      List.getElem?_set_eq_of_lt _ (h2 ▸ hp),
      List.getElem?_set_eq_of_lt _ (h3 ▸ hp),
      List.getElem?_set_eq_of_lt _ (h4 ▸ hp)]

theorem panelAt_foldl_ne (data : List Nat) (p : Nat) (L : List Nat)
    (h : ∀ q ∈ L, q ≠ p) :
    ∀ out : SensorTestData,
      panelAt (L.foldl (fun o q => decodeOnePanel data q o) out) p = panelAt out p := by
  induction L with
  | nil => intro out; rfl
  | cons q rest ih =>
    intro out
    rw [List.foldl_cons,
      ih (fun r hr => h r (List.mem_cons_of_mem _ hr)),
      panelAt_decodeOnePanel_ne data q p out (h q (List.mem_cons_self q rest))]

theorem foldl_lengths (data : List Nat) (L : List Nat) :
    ∀ out : SensorTestData,
      (let r := L.foldl (fun o q => decodeOnePanel data q o) out
       r.bHaveDataFromPanel.length = out.bHaveDataFromPanel.length ∧
       r.sensorLevel.length = out.sensorLevel.length ∧
       r.bBadSensorInput.length = out.bBadSensorInput.length ∧
       r.iDIPSwitchPerPanel.length = out.iDIPSwitchPerPanel.length) := by
  induction L with
  | nil => intro out; exact ⟨rfl, rfl, rfl, rfl⟩
  | cons q rest ih =>
    intro out
    rw [List.foldl_cons]
    obtain ⟨e1, e2, e3, e4⟩ := ih (decodeOnePanel data q out)
    exact ⟨e1.trans (length_decodeOnePanel_bHave data q out),
      e2.trans (length_decodeOnePanel_sensorLevel data q out),
      e3.trans (length_decodeOnePanel_bBad data q out),
      e4.trans (length_decodeOnePanel_dip data q out)⟩

theorem panelAt_empty (p : Nat) (hp : p < 9) :
    panelAt emptySensorData p =
      (false, List.replicate 4 0, List.replicate 4 false, 0) := by
  simp only [panelAt, emptySensorData, List.getD_eq_getElem?_getD,
    List.getElem?_replicate_of_lt hp, Option.getD_some]

/-- Pointwise characterization of the decoded output: panel `p`'s slots of
`decodeAllPanels data` hold the decoded record when the signature bits are
`0,1,0`, and stay zeroed (have-data `false`) otherwise. -/
theorem panelAt_decodeAllPanels (data : List Nat) (p : Nat) (hp : p < 9) :
    panelAt (decodeAllPanels data) p =
      (let pd := decodeDetail (ReadDataForPanel data p detailDataSize)
       if pd.sig1 ≠ false ∨ pd.sig2 ≠ true ∨ pd.sig3 ≠ false then
         (false, List.replicate 4 0, List.replicate 4 false, 0)
       else
         (true, pd.sensors,
          [pd.bad_sensor_0, pd.bad_sensor_1, pd.bad_sensor_2, pd.bad_sensor_3],
          pd.dip)) := by
  have hdec : (9 : Nat) = p + ((8 - p) + 1) := by omega
  have hsplit : List.range 9 =
      List.range p ++ (p + 0) ::
        ((List.range (8 - p)).map Nat.succ).map (p + ·) := by
    rw [hdec, List.range_add, List.range_succ_eq_map, List.map_cons]
  obtain ⟨l1, l2, l3, l4⟩ := foldl_lengths data (List.range p) emptySensorData
  have hstep : panelAt (decodeAllPanels data) p =
      panelAt (decodeOnePanel data p
        ((List.range p).foldl (fun o q => decodeOnePanel data q o) emptySensorData)) p := by
    rw [decodeAllPanels, hsplit, List.foldl_append, List.foldl_cons]
    rw [panelAt_foldl_ne data p _ (by
      intro q hq
      simp only [List.mem_map] at hq
      obtain ⟨t, _, ht2⟩ := hq
      omega)]
    rw [show p + 0 = p from rfl]
  have hout : panelAt
      ((List.range p).foldl (fun o q => decodeOnePanel data q o) emptySensorData) p =
      (false, List.replicate 4 0, List.replicate 4 false, 0) := by
    rw [panelAt_foldl_ne data p _ (by
      intro q hq
      rw [List.mem_range] at hq
      omega), panelAt_empty p hp]
  have e2 : ((List.range p).foldl (fun o q => decodeOnePanel data q o)
      emptySensorData).sensorLevel.getD p [] = List.replicate 4 0 := by
    have h5 := congrArg (fun t => t.2.1) hout
    simpa [panelAt] using h5
  have e3 : ((List.range p).foldl (fun o q => decodeOnePanel data q o)
      emptySensorData).bBadSensorInput.getD p [] = List.replicate 4 false := by
    have h5 := congrArg (fun t => t.2.2.1) hout
    simpa [panelAt] using h5
  have e4 : ((List.range p).foldl (fun o q => decodeOnePanel data q o)
      emptySensorData).iDIPSwitchPerPanel.getD p 0 = 0 := by
    have h5 := congrArg (fun t => t.2.2.2) hout
    simpa [panelAt] using h5
  rw [hstep, panelAt_decodeOnePanel_self data p _
    (l1.trans rfl) (l2.trans rfl) (l3.trans rfl) (l4.trans rfl) hp]
  dsimp only
  rw [e2, e3, e4]

theorem extractWords_length (buf : List Nat) (iSize : Nat) :
    (extractWords buf iSize).length = (iSize + 1) / 2 := by
  rw [extractWords, List.length_map, List.length_range]

theorem extractWords_getD (buf : List Nat) (iSize k : Nat)
    (hk : k < (iSize + 1) / 2) :
    (extractWords buf iSize).getD k 0 =
      (buf.getD (3 + 2 * k + 1) 0) <<< 8 ||| buf.getD (3 + 2 * k) 0 := by
  rw [extractWords]
  simp [List.getD_eq_getElem?_getD, List.getElem?_map, List.getElem?_range hk]

/-!
### Claim theorems
-/

/-- A concrete connected session state used by the witnesses. -/
def sampleState : DeviceState :=
  { connected := true
    connectedWithInfo := true
    m_bHaveConfig := true
    m_bSendConfig := true
    m_bSendingConfig := false
    config := [1, 2]
    wanted_config := [3, 4]
    m_SensorTestMode := 48
    m_WaitingForSensorTestModeResponse := 48
    m_SentSensorTestModeRequestAtTicks := 0
    m_HaveSensorTestModeData := false
    m_SensorTestData := emptySensorData }

/-- C1: while connected, the per-cycle config-sync step `SendConfig` does
nothing when `haveConfig` is false, no write is pending, or a write is in
flight; otherwise it emits exactly one write command carrying `wanted`'s
byte length and bytes, sets the in-flight flag (which the send-completion
callback clears), immediately sets `confirmed = wanted` and clears the
pending flag, then emits one readback request.  Two `setConfig` calls made
before the first write completes produce, once that write's completion
callback has run, exactly one further wire write carrying the final wanted
value. -/
theorem sendConfig_per_cycle_spec (s : DeviceState) (c1 c2 : SMXConfig)
    (hc : s.connected = true) :
    ((s.m_bHaveConfig = false ∨ s.m_bSendConfig = false ∨ s.m_bSendingConfig = true) →
      SendConfig s = (s, [])) ∧
    (s.m_bHaveConfig = true → s.m_bSendConfig = true → s.m_bSendingConfig = false →
      (SendConfig s =
        ({ s with m_bSendingConfig := true, m_bSendConfig := false,
                  config := s.wanted_config },
         [.writeConfig (s.wanted_config.length % 256) s.wanted_config, .readConfig]) ∧
       (configWriteCompleted (SendConfig s).1).m_bSendingConfig = false ∧
       (SendConfig (SetConfig (SetConfig (SendConfig s).1 c1).1 c2).1).2 = [] ∧
       (SendConfig (configWriteCompleted
           (SetConfig (SetConfig (SendConfig s).1 c1).1 c2).1)).2 =
         [.writeConfig (c2.length % 256) c2, .readConfig])) := by
  constructor
  · intro h
    rw [SendConfig]
    split
    · rfl
    · split
      · rfl
      · rename_i hA hB
        exfalso
        rcases h with h | h | h <;> simp_all
  · intro hh hs hf
    refine ⟨?_, ?_, ?_, ?_⟩
    · simp [SendConfig, SendCommandLocked, hc, hh, hs, hf]
    · simp [configWriteCompleted]
    · simp [SendConfig, SetConfig, SendCommandLocked, hc, hh, hs, hf]
    · simp [SendConfig, SetConfig, configWriteCompleted, SendCommandLocked,
        hc, hh, hs, hf]

/-- C1 witness at a concrete state. -/
theorem sendConfig_per_cycle_spec_witness :
    sampleState.connected = true ∧
    SendConfig sampleState =
      ({ sampleState with m_bSendingConfig := true, m_bSendConfig := false,
                          config := [3, 4] },
       [.writeConfig 2 [3, 4], .readConfig]) ∧
    (SendConfig (SetConfig (SetConfig (SendConfig sampleState).1 [5]).1 [7]).1).2 = [] ∧
    (SendConfig (configWriteCompleted
        (SetConfig (SetConfig (SendConfig sampleState).1 [5]).1 [7]).1)).2 =
      [.writeConfig 1 [7], .readConfig] := by
  have h := (sendConfig_per_cycle_spec sampleState [5] [7] rfl).2 rfl rfl rfl
  exact ⟨rfl, h.1, h.2.2.1, h.2.2.2⟩

/-- C2: `setConfig` stores its argument into `wanted` and sets the
pending-write flag unconditionally (no diffing against `confirmed`) and
sends nothing itself; while the pending flag is set `getConfig` returns
`wanted`, otherwise `confirmed`; its boolean result is `haveConfig`, which
stays false until an accepted configuration readback.  Even a `setConfig`
with the currently confirmed value, with no write pending, schedules one
write+readback cycle on the next `SendConfig` step. -/
theorem setConfig_getConfig_spec (s : DeviceState) (c : SMXConfig) :
    (SetConfig s c = ({ s with wanted_config := c, m_bSendConfig := true }, []) ∧
     GetConfig (SetConfig s c).1 = (c, s.m_bHaveConfig)) ∧
    (s.m_bSendConfig = true → GetConfig s = (s.wanted_config, s.m_bHaveConfig)) ∧
    (s.m_bSendConfig = false → GetConfig s = (s.config, s.m_bHaveConfig)) ∧
    (s.connected = true → s.m_bHaveConfig = true → s.m_bSendingConfig = false →
      (SendConfig (SetConfig s s.config).1).2 =
        [.writeConfig (s.config.length % 256) s.config, .readConfig]) ∧
    (∀ ops : List Op, (∀ op ∈ ops, opHasValidG op = false) →
      s.m_bHaveConfig = false →
      (GetConfig (ops.foldl applyOp s)).2 = false) := by
  refine ⟨⟨rfl, ?_⟩, ?_, ?_, ?_, ?_⟩
  · simp [GetConfig, SetConfig]
  · intro h; simp [GetConfig, h]
  · intro h; simp [GetConfig, h]
  · intro hc hh hf
    simp [SendConfig, SetConfig, SendCommandLocked, hc, hh, hf]
  · intro ops hall hf
    exact (trace_haveConfig_stays_false ops s hall hf).1

/-- C2 witness at a concrete state. -/
theorem setConfig_getConfig_spec_witness :
    GetConfig (SetConfig sampleState [9, 9]).1 = ([9, 9], true) ∧
    (SendConfig (SetConfig sampleState sampleState.config).1).2 =
      [.writeConfig 2 [1, 2], .readConfig] ∧
    (GetConfig ([Op.opSetConfig [9], Op.opUpdateTestMode 7].foldl applyOp
      { sampleState with m_bHaveConfig := false })).2 = false := by
  have h := setConfig_getConfig_spec sampleState [9, 9]
  have h2 := setConfig_getConfig_spec { sampleState with m_bHaveConfig := false } [9, 9]
  exact ⟨h.1.2, h.2.2.2.1 rfl rfl rfl,
    h2.2.2.2.2 [Op.opSetConfig [9], Op.opUpdateTestMode 7] (by decide) rfl⟩

/-- C6: while a sensor-test mode is active and the device is connected,
the per-cycle step sends nothing if a request is outstanding for less than
2000 ms; otherwise (no request outstanding, or at least 2000 ms elapsed)
it sends exactly one request tagged with the active mode and records the
outstanding mode and send timestamp. -/
theorem updateTestMode_spec (s : DeviceState) (now : Nat)
    (hmode : s.m_SensorTestMode ≠ SensorTestMode_Off)
    (hc : s.connected = true) :
    (s.m_WaitingForSensorTestModeResponse ≠ SensorTestMode_Off →
      elapsedTicks now s.m_SentSensorTestModeRequestAtTicks < 2000 →
      UpdateTestMode s now = (s, [])) ∧
    ((s.m_WaitingForSensorTestModeResponse = SensorTestMode_Off ∨
      2000 ≤ elapsedTicks now s.m_SentSensorTestModeRequestAtTicks) →
      UpdateTestMode s now =
        ({ s with m_WaitingForSensorTestModeResponse := s.m_SensorTestMode,
                  m_SentSensorTestModeRequestAtTicks := now },
         [.sensorTestRequest s.m_SensorTestMode])) := by
  constructor
  · intro hw helapsed
    rw [UpdateTestMode, if_neg hmode, if_pos ⟨hw, helapsed⟩]
  · intro h
    rw [UpdateTestMode, if_neg hmode, if_neg (by
      intro hcon
      rcases h with h | h
      · exact hcon.1 h
      · omega)]
    rw [SendCommandLocked, if_pos hc]

/-- C6 witness: a request for mode 48 sent at t=0 with no response is
reissued at t=2001 (and not at t=1999). -/
theorem updateTestMode_spec_witness :
    (UpdateTestMode sampleState 1999 = (sampleState, []) ∧
     UpdateTestMode sampleState 2001 =
       ({ sampleState with m_WaitingForSensorTestModeResponse := 48,
                           m_SentSensorTestModeRequestAtTicks := 2001 },
        [.sensorTestRequest 48])) := by
  have h1 := (updateTestMode_spec sampleState 1999 (by decide) rfl).1
    (by decide) (by decide)
  have h2 := (updateTestMode_spec sampleState 2001 (by decide) rfl).2
    (Or.inr (by decide))
  exact ⟨h1, h2⟩

/-- C8: `close()` resets `haveConfig` and `sendConfigPending` and raises
the `Updated` notification; afterwards `isConnected()` is false and
`getConfig`'s boolean stays false across any operations that do not carry
an accepted configuration readback. -/
theorem closeDevice_spec (s : DeviceState) :
    (CloseDevice s).1.m_bHaveConfig = false ∧
    (CloseDevice s).1.m_bSendConfig = false ∧
    (CloseDevice s).2 = [.Updated] ∧
    IsConnectedLocked (CloseDevice s).1 = false ∧
    (GetConfig (CloseDevice s).1).2 = false ∧
    (∀ ops : List Op, (∀ op ∈ ops, opHasValidG op = false) →
      (IsConnectedLocked (ops.foldl applyOp (CloseDevice s).1) = false ∧
       (GetConfig (ops.foldl applyOp (CloseDevice s).1)).2 = false)) := by
  refine ⟨rfl, rfl, rfl, rfl, rfl, ?_⟩
  intro ops hall
  have h := trace_haveConfig_stays_false ops (CloseDevice s).1 hall rfl
  exact ⟨h.2, h.1⟩

/-- C8 witness at a concrete state and trace. -/
theorem closeDevice_spec_witness :
    (CloseDevice sampleState).1.m_bHaveConfig = false ∧
    (CloseDevice sampleState).2 = [.Updated] ∧
    IsConnectedLocked
      ([Op.opSetConfig [9], Op.opHandlePackets [[121, 48, 0], [103]]].foldl
        applyOp (CloseDevice sampleState).1) = false := by
  have h := closeDevice_spec sampleState
  exact ⟨h.1, h.2.2.1,
    (h.2.2.2.2.2 [Op.opSetConfig [9], Op.opHandlePackets [[121, 48, 0], [103]]]
      (by decide)).1⟩

/-- A concrete state holding live sensor-test bookkeeping, to exhibit what
`CloseDevice` does (and does not) reset. -/
def closeSample : DeviceState :=
  { sampleState with
    m_HaveSensorTestModeData := true
    m_WaitingForSensorTestModeResponse := 48
    m_SentSensorTestModeRequestAtTicks := 5 }

/-- C9 counterexample: after `close()`, the outstanding-request mode and
the have-data flag are NOT reset to their no-data initial values. -/
theorem closeDevice_sensorReset_counterexample :
    ¬((CloseDevice closeSample).1.m_WaitingForSensorTestModeResponse
        = SensorTestMode_Off ∧
      (CloseDevice closeSample).1.m_HaveSensorTestModeData = false) := by
  decide

/-- C9 amended: `close()` leaves the sensor-test mode selection unchanged,
and it also leaves the outstanding-request state (`awaitingMode`, request
timestamp) and the last-received sensor-test data (have-data flag and
stored record) unchanged — nothing of the sensor-test state is reset on
disconnect. -/
theorem closeDevice_sensorTest_spec (s : DeviceState) :
    (CloseDevice s).1.m_SensorTestMode = s.m_SensorTestMode ∧
    (CloseDevice s).1.m_WaitingForSensorTestModeResponse
      = s.m_WaitingForSensorTestModeResponse ∧
    (CloseDevice s).1.m_SentSensorTestModeRequestAtTicks
      = s.m_SentSensorTestModeRequestAtTicks ∧
    (CloseDevice s).1.m_HaveSensorTestModeData = s.m_HaveSensorTestModeData ∧
    (CloseDevice s).1.m_SensorTestData = s.m_SensorTestData ∧
    GetTestData (CloseDevice s).1 = GetTestData s := by
  exact ⟨rfl, rfl, rfl, rfl, rfl, rfl⟩

/-- C5 counterexample: with a request outstanding for mode 48, a complete
response echoing mode 50 is discarded, but `awaitingMode` is NOT cleared
to `Off` — the handler returns before the clearing assignment. -/
theorem sensorTest_mismatch_counterexample :
    ¬((HandleSensorTestDataResponse sampleState [121, 50, 0]).m_WaitingForSensorTestModeResponse = SensorTestMode_Off) := by
  decide

/-- C5 amended: a complete response whose echoed mode differs from the
outstanding request is discarded with NO state change at all — in
particular `awaitingMode` keeps the outstanding mode, so a later complete
response echoing the originally requested mode is still accepted without
any new request having been sent (provided that mode is still the active
mode). -/
theorem sensorTest_mismatch_spec (s : DeviceState) (buf buf2 : List Nat)
    (h3 : 3 ≤ buf.length)
    (hlen : (buf.getD 2 0 * 2) % 256 + 3 ≤ buf.length)
    (hw : s.m_WaitingForSensorTestModeResponse ≠ SensorTestMode_Off)
    (hm : buf.getD 1 0 ≠ s.m_WaitingForSensorTestModeResponse) :
    HandleSensorTestDataResponse s buf = s ∧
    (3 ≤ buf2.length → (buf2.getD 2 0 * 2) % 256 + 3 ≤ buf2.length →
     buf2.getD 1 0 = s.m_WaitingForSensorTestModeResponse →
     buf2.getD 1 0 = s.m_SensorTestMode →
     ((HandleSensorTestDataResponse s buf2).m_WaitingForSensorTestModeResponse
        = SensorTestMode_Off ∧
      (HandleSensorTestDataResponse s buf2).m_HaveSensorTestModeData = true)) := by
  constructor
  · rw [HandleSensorTestDataResponse, if_neg (by omega)]
    dsimp only
    rw [if_neg (by omega), if_neg hw, if_pos hm]
  · intro h3' hlen' hecho hact
    rw [HandleSensorTestDataResponse, if_neg (by omega)]
    dsimp only
    rw [if_neg (by omega), if_neg hw, if_neg (fun h => h hecho),
      if_neg (fun h => h hact)]
    exact ⟨rfl, rfl⟩

/-- C5 witness: after the mismatched response above was discarded, a
complete response echoing the original mode 48 is accepted with no new
request having been issued. -/
theorem sensorTest_mismatch_spec_witness :
    HandleSensorTestDataResponse sampleState [121, 50, 0] = sampleState ∧
    (HandleSensorTestDataResponse sampleState [121, 48, 0]).m_WaitingForSensorTestModeResponse = SensorTestMode_Off ∧
    (HandleSensorTestDataResponse sampleState [121, 48, 0]).m_HaveSensorTestModeData = true := by
  have h := sensorTest_mismatch_spec sampleState [121, 50, 0] [121, 48, 0]
    (by decide) (by decide) (by decide) (by decide)
  have h2 := h.2 (by decide) (by decide) (by decide) (by decide)
  exact ⟨h.1, h2.1, h2.2⟩

/-- A session state that has not yet read a configuration, for the packet
dispatch counterexample. -/
def noConfigState : DeviceState := { sampleState with m_bHaveConfig := false }

/-- C7 counterexample: a malformed `'g'` packet (declared length 5 exceeds
the 0 following bytes) does not stop the dispatch loop: a valid `'g'`
packet queued behind it is still processed this cycle and populates the
configuration cache, while the malformed packet's own bytes are dropped
with no state change. -/
theorem handlePackets_malformed_counterexample :
    (HandlePackets noConfigState [[103, 5], [103, 1, 7]]).m_bHaveConfig = true ∧
    handlePacket noConfigState [103, 5] = noConfigState := by
  decide

/-- C7 amended: on a recognized-tag packet whose declared length exceeds
the available bytes, the dispatcher logs a communication error and skips
that packet (its bytes are discarded with no state change), then continues
this cycle's dispatch loop with the remaining packets — it does not stop
early. -/
theorem handlePackets_malformed_spec (s : DeviceState) (buf : List Nat)
    (rest : List (List Nat))
    (hne : buf.length ≠ 0) (hg : buf.getD 0 0 = tag_g)
    (hmal : buf.length < buf.getD 1 0 + 2) :
    handlePacket s buf = s ∧
    HandlePackets s (buf :: rest) = HandlePackets s rest := by
  have hstep : handlePacket s buf = s := by
    rw [handlePacket, if_neg hne, if_neg (by rw [hg]; decide), if_pos hg]
    by_cases h2 : buf.length < 2
    · rw [if_pos h2]
    · rw [if_neg h2]
      dsimp only
      rw [if_pos hmal]
  refine ⟨hstep, ?_⟩
  rw [HandlePackets, List.foldl_cons, hstep, HandlePackets]

/-- C7 witness for the amended behavior at concrete packets. -/
theorem handlePackets_malformed_spec_witness :
    handlePacket noConfigState [103, 5] = noConfigState ∧
    HandlePackets noConfigState [[103, 5], [103, 1, 7]] =
      HandlePackets noConfigState [[103, 1, 7]] := by
  have h := handlePackets_malformed_spec noConfigState [103, 5] [[103, 1, 7]]
    (by decide) (by decide) (by decide)
  exact ⟨h.1, h.2⟩

/-- C3: `ReadDataForPanel` produces `iOutSize` bytes, and bit `j`
(LSB-first) of output byte `i` equals bit `iPanel` of word `8*i + j` while
that index is inside the word list, and `0` after the cursor has exhausted
it.  Word `n` therefore contributes exactly its bit `iPanel` to this
panel's stream: all 9 panels decode the same words in lockstep, one bit
per word per panel. -/
theorem readDataForPanel_bit_spec (data : List Nat) (iPanel N i j : Nat)
    (hi : i < N) (hj : j < 8) :
    (ReadDataForPanel data iPanel N).length = N ∧
    ((ReadDataForPanel data iPanel N).getD i 0).testBit j =
      (decide (8 * i + j < data.length) &&
        (data.getD (8 * i + j) 0).testBit iPanel) := by
  refine ⟨readDataLoop_length data iPanel N 0, ?_⟩
  rw [ReadDataForPanel, readDataLoop_getD data iPanel N 0 i (by omega) hi,
    bitsFrom_testBit]
  rcases Nat.lt_or_ge (8 * i) data.length with h | h
  · have hmin : min (0 + 8 * i) data.length = 8 * i := by omega
    rw [hmin]
    simp [hj]
  · have hmin : min (0 + 8 * i) data.length = data.length := by omega
    rw [hmin]
    have h1 : ¬ (data.length + j < data.length) := by omega
    have h2 : ¬ (8 * i + j < data.length) := by omega
    simp [h1, h2]

/-- C3 witness: panel 0, words `[2, 3]`, one output byte: bit 0 comes from
word 0 (bit 0 of 2 = 0), bit 1 from word 1 (bit 0 of 3 = 1), bit 2 is past
the end of the word list, hence 0. -/
theorem readDataForPanel_bit_spec_witness :
    (0 < 1 ∧ 1 < 8) ∧
    ((ReadDataForPanel [2, 3] 0 1).length = 1 ∧
     ((ReadDataForPanel [2, 3] 0 1).getD 0 0).testBit 1 =
       (decide (8 * 0 + 1 < ([2, 3] : List Nat).length) &&
         (([2, 3] : List Nat).getD (8 * 0 + 1) 0).testBit 0)) :=
  ⟨⟨by decide, by decide⟩,
   readDataForPanel_bit_spec [2, 3] 0 1 0 1 (by decide) (by decide)⟩

/-- C4: an accepted sensor-test response overwrites the stored telemetry
wholesale with a value computed from the packet alone (the output is zeroed
first, never merged with the previous cycle's data), clears the
outstanding-request mode and sets the have-data flag; each of the 9 panels
decodes its fixed-size 10-byte record from the shared word stream — three
signature bits that must be `0,1,0` in order (else that panel's have-data
flag is false and its slots stay zeroed while the other panels are still
decoded), then four bad-sensor bits, one reserved bit, four little-endian
signed 16-bit readings, and a 4-bit DIP value with four reserved bits. -/
theorem sensorTest_decode_spec (s : DeviceState) (buf : List Nat)
    (h3 : 3 ≤ buf.length)
    (hlen : (buf.getD 2 0 * 2) % 256 + 3 ≤ buf.length)
    (hw : s.m_WaitingForSensorTestModeResponse ≠ SensorTestMode_Off)
    (hecho : buf.getD 1 0 = s.m_WaitingForSensorTestModeResponse)
    (hact : buf.getD 1 0 = s.m_SensorTestMode) :
    (HandleSensorTestDataResponse s buf =
      { s with
        m_WaitingForSensorTestModeResponse := SensorTestMode_Off
        m_HaveSensorTestModeData := true
        m_SensorTestData :=
          decodeAllPanels (extractWords buf ((buf.getD 2 0 * 2) % 256)) }) ∧
    (∀ p, p < 9 →
      panelAt (decodeAllPanels (extractWords buf ((buf.getD 2 0 * 2) % 256))) p =
        (let pd := decodeDetail (ReadDataForPanel
            (extractWords buf ((buf.getD 2 0 * 2) % 256)) p detailDataSize)
         if pd.sig1 ≠ false ∨ pd.sig2 ≠ true ∨ pd.sig3 ≠ false then
           (false, List.replicate 4 0, List.replicate 4 false, 0)
         else
           (true, pd.sensors,
            [pd.bad_sensor_0, pd.bad_sensor_1, pd.bad_sensor_2, pd.bad_sensor_3],
            pd.dip))) := by
  constructor
  · rw [HandleSensorTestDataResponse, if_neg (by omega)]
    dsimp only
    rw [if_neg (by omega), if_neg hw, if_neg (fun h => h hecho),
      if_neg (fun h => h hact)]
  · intro p hp
    exact panelAt_decodeAllPanels _ p hp

/-- C4 witness: a concrete accepted response whose 3 words give panel 0
the signature `0,1,0` with all remaining bits zero (have-data true, zero
readings, clear flags, DIP 0) and panel 1 the signature `1,1,0` (have-data
false, slots zeroed). -/
theorem sensorTest_decode_spec_witness :
    (HandleSensorTestDataResponse sampleState [121, 48, 3, 2, 0, 3, 0, 0, 0]).m_SensorTestData.bHaveDataFromPanel.getD 0 false = true ∧
    (HandleSensorTestDataResponse sampleState [121, 48, 3, 2, 0, 3, 0, 0, 0]).m_SensorTestData.sensorLevel.getD 0 [] = [0, 0, 0, 0] ∧
    (HandleSensorTestDataResponse sampleState [121, 48, 3, 2, 0, 3, 0, 0, 0]).m_SensorTestData.bBadSensorInput.getD 0 [] = [false, false, false, false] ∧
    (HandleSensorTestDataResponse sampleState [121, 48, 3, 2, 0, 3, 0, 0, 0]).m_SensorTestData.iDIPSwitchPerPanel.getD 0 0 = 0 ∧
    (HandleSensorTestDataResponse sampleState [121, 48, 3, 2, 0, 3, 0, 0, 0]).m_SensorTestData.bHaveDataFromPanel.getD 1 false = false ∧
    (HandleSensorTestDataResponse sampleState [121, 48, 3, 2, 0, 3, 0, 0, 0]).m_HaveSensorTestModeData = true := by
  have h := sensorTest_decode_spec sampleState [121, 48, 3, 2, 0, 3, 0, 0, 0]
    (by decide) (by decide) (by decide) (by decide) (by decide)
  rw [h.1]
  decide

/-- C10: parsing a `'y'` response computes the expected payload byte count
as the word-count byte times 2 truncated to 8 bits; the handler returns
with no state change while fewer than that payload plus 3 header bytes are
buffered; the number of words extracted is that truncated byte count halved
(equal to the declared word count only below 128, and `wordCount - 128`
for byte values 128..255), and each extracted word is the little-endian
pair at its offset. -/
theorem sensorTest_size_spec (s : DeviceState) (buf : List Nat)
    (h3 : 3 ≤ buf.length) :
    ((buf.length < (buf.getD 2 0 * 2) % 256 + 3 →
       HandleSensorTestDataResponse s buf = s) ∧
     (extractWords buf ((buf.getD 2 0 * 2) % 256)).length
        = (buf.getD 2 0 * 2) % 256 / 2 ∧
     (buf.getD 2 0 < 128 →
       (extractWords buf ((buf.getD 2 0 * 2) % 256)).length = buf.getD 2 0) ∧
     (128 ≤ buf.getD 2 0 → buf.getD 2 0 < 256 →
       (extractWords buf ((buf.getD 2 0 * 2) % 256)).length
          = buf.getD 2 0 - 128) ∧
     (∀ k, k < (buf.getD 2 0 * 2) % 256 / 2 →
       (extractWords buf ((buf.getD 2 0 * 2) % 256)).getD k 0 =
         (buf.getD (3 + 2 * k + 1) 0) <<< 8 ||| buf.getD (3 + 2 * k) 0)) := by
  have hlen : (extractWords buf ((buf.getD 2 0 * 2) % 256)).length
      = (buf.getD 2 0 * 2) % 256 / 2 := by
    rw [extractWords_length]
    omega
  refine ⟨?_, hlen, ?_, ?_, ?_⟩
  · intro hshort
    rw [HandleSensorTestDataResponse, if_neg (by omega)]
    dsimp only
    rw [if_pos hshort]
  · intro hsmall
    rw [hlen]
    omega
  · intro hbig hbyte
    rw [hlen]
    omega
  · intro k hk
    exact extractWords_getD buf ((buf.getD 2 0 * 2) % 256) k (by omega)

/-- C10 witness: a packet declaring 130 words yields `(130*2) mod 256 / 2
= 2` extracted words, not 130; one declaring 2 words yields 2; short
buffers leave the state unchanged. -/
theorem sensorTest_size_spec_witness :
    (extractWords ([121, 48, 130] ++ List.replicate 4 7) ((130 * 2) % 256)).length = 2 ∧
    (extractWords [121, 48, 2, 5, 1, 6, 2] ((2 * 2) % 256)).length = 2 ∧
    HandleSensorTestDataResponse sampleState [121, 48, 2, 5, 1] = sampleState := by
  have h1 := sensorTest_size_spec sampleState ([121, 48, 130] ++ List.replicate 4 7)
    (by decide)
  have h2 := sensorTest_size_spec sampleState [121, 48, 2, 5, 1] (by decide)
  refine ⟨?_, by decide, h2.1 (by decide)⟩
  have := h1.2.2.2.1 (by decide) (by decide)
  simpa using this

end SMXSpec
